import Mathlib

/-!
Verification of the TalkCo backend (realtime session orchestrator).

This file shallowly embeds the parts of the repository that the checked
claims are about:

* `backend/providers/openai_s2s.py` — the `RealtimeSession` class: the
  listener loop feeding the event queue, the per-turn event loops of
  `send_audio_and_stream`, `send_text_and_stream` and `stream_greeting`,
  and the segment-persistence step with its turn counter.
* `backend/sessions.py` — the in-memory session registry
  (`create_session`, `_connect_with_retry`, `get_session`,
  `delete_session`).
* `backend/main.py` — the `_finalize_session` background task.
* `backend/review.py` / `backend/profile.py` — just enough of
  `generate_session_review`, `update_profile_after_session`,
  `generate_chat_summary` and `get_or_create_profile` to settle the
  finalization and profile claims, with the remote LLM treated as an
  opaque collaborator.
* `backend/db.py` — the column constraints of the `user_profiles` table
  that the profile claims depend on.

Inbound protocol events are modelled by `Ev`; the Python code enqueues
the raw event objects and uses `None` as the listener's sentinel, so the
event queue holds `Option Ev` values.  Fallible SQL writes are modelled
with `Except`/`Bool` success flags.  Timeouts of the bounded queue `get`
are modelled by exhausting the (finite) list of events that arrive while
the loop runs.
-/

/-- Typed inbound protocol events of the realtime connection, as matched
on by the event loops in `openai_s2s.py` (the `event.type` strings
`conversation.item.input_audio_transcription.completed`,
`response.audio_transcript.delta`, `response.audio.delta`,
`response.output_item.done`, `response.done`, `error`). -/
inductive Ev
  | inputTranscript (transcript : String)
  | textDelta (delta : String)
  | audioDelta (delta : String)
  | outputItemDone (isFunctionCall : Bool)
  | responseDone
  | errorEv
  deriving DecidableEq, Repr

/-- Items of the event queue: a real event, or `none`, the sentinel the
listener pushes (Python pushes the literal `None`). -/
abbrev QItem := Option Ev

/-- `RealtimeSession._listen_loop`: forwards every event read from the
connection to the queue; if reading raises, the exception handler logs
and pushes the sentinel.  `events` are the events the connection
delivers before terminating and `raisesError` tells whether the
iteration ended by raising (the `except` path) or by a normal close of
the connection (the `async for` simply finishing). -/
def listen_loop (events : List Ev) (raisesError : Bool) : List QItem :=
  events.map some ++ (if raisesError then [none] else [])

/-- Caller-visible streamed output items (`_sse` events) produced by the
turn and greeting generators. -/
inductive Out
  | transcript (text : String)
  | audio (delta : String)
  | response (text : String)
  | timing (step : String)
  | done
  deriving DecidableEq, Repr

/-- Result of one run of the audio-turn event loop of
`send_audio_and_stream`: the accumulated user transcript, the
accumulated reply buffer, the output items emitted while looping and
whether an audio delta was seen (controls the `first_audio` timing
item). -/
structure LoopRes where
  transcript : String
  response : String
  outs : List Out
  sawAudio : Bool
  deriving DecidableEq, Repr

/-- The `while True` event loop of `send_audio_and_stream`
(openai_s2s.py lines 198–236).  The list is the sequence of items popped
from the queue; running out of items models the 30 s pop timeout, and a
`none` item is the listener's sentinel — both stop the loop, as do
`response.done` and `error` events.  A completed output item that is a
function call is handled by the tool dispatcher (whose effects go to the
connection, not to this loop's state) and the loop continues. -/
def audioLoop : List QItem → String → String → Bool → List Out → LoopRes
  | [], t, r, sa, acc => ⟨t, r, acc, sa⟩
  | none :: _, t, r, sa, acc => ⟨t, r, acc, sa⟩
  | some ev :: rest, t, r, sa, acc =>
    match ev with
    | .inputTranscript s => audioLoop rest s r sa (acc ++ [Out.transcript s])
    | .textDelta d => audioLoop rest t (r ++ d) sa acc
    | .audioDelta d => audioLoop rest t r true (acc ++ [Out.audio d])
    | .outputItemDone _ => audioLoop rest t r sa acc
    | .responseDone => ⟨t, r, acc, sa⟩
    | .errorEv => ⟨t, r, acc, sa⟩

/-- A persisted segment row: turn index, user text, reply text
(`segments` table columns `turn_index`, `user_text`, `ai_text`). -/
abbrev SegRec := Nat × String × String

/-- The per-session turn-sequencing state of `RealtimeSession`:
`_turn_index` (initialised to 0 in `__init__`) and the rows of the
`segments` table persisted for this session, in insertion order. -/
structure SessState where
  turnIndex : Nat
  segments : List SegRec
  deriving DecidableEq, Repr

/-- The segment-persistence step shared by `send_audio_and_stream`
(lines 241–263) and `send_text_and_stream` (lines 409–426): if both
texts are non-empty, attempt the INSERT; on success (`dbOk`) the row is
added and `_turn_index` is incremented afterwards; a failed insert is
logged and leaves both the table and the counter unchanged; if either
text is empty nothing is attempted. -/
def persistSegment (st : SessState) (userText replyText : String) (dbOk : Bool) :
    SessState :=
  if userText ≠ "" ∧ replyText ≠ "" then
    if dbOk then
      { turnIndex := st.turnIndex + 1,
        segments := st.segments ++ [(st.turnIndex, userText, replyText)] }
    else st
  else st

/-- `RealtimeSession.send_audio_and_stream`, restricted to one turn's
event consumption and persistence (the drain of stale events is modelled
separately, see `consume_events`).  Returns the updated session state
and the ordered output items of the turn. -/
def send_audio_and_stream (st : SessState) (events : List QItem) (dbOk : Bool) :
    SessState × List Out :=
  let L := audioLoop events "" "" false []
  let outs := L.outs ++ (if L.response ≠ "" then [Out.response L.response] else [])
  let st' := persistSegment st L.transcript L.response dbOk
  (st', outs
      ++ (if L.sawAudio then [Out.timing "first_audio"] else [])
      ++ [Out.timing "total", Out.done])

/-- The event loop of `send_text_and_stream` (lines 370–404): like the
audio loop but the user transcript is the input text echoed up front, so
input-transcription events have no matching branch and are skipped. -/
def textLoop : List QItem → String → Bool → List Out → LoopRes
  | [], r, sa, acc => ⟨"", r, acc, sa⟩
  | none :: _, r, sa, acc => ⟨"", r, acc, sa⟩
  | some ev :: rest, r, sa, acc =>
    match ev with
    | .inputTranscript _ => textLoop rest r sa acc
    | .textDelta d => textLoop rest (r ++ d) sa acc
    | .audioDelta d => textLoop rest r true (acc ++ [Out.audio d])
    | .outputItemDone _ => textLoop rest r sa acc
    | .responseDone => ⟨"", r, acc, sa⟩
    | .errorEv => ⟨"", r, acc, sa⟩

/-- `RealtimeSession.send_text_and_stream`: echoes the user text as the
transcript item immediately, runs the event loop, then persists a
segment when both the input text and the reply are non-empty. -/
def send_text_and_stream (st : SessState) (text : String) (events : List QItem)
    (dbOk : Bool) : SessState × List Out :=
  let L := textLoop events "" false []
  let outs := Out.transcript text ::
      (L.outs ++ (if L.response ≠ "" then [Out.response L.response] else []))
  let st' := persistSegment st text L.response dbOk
  (st', outs
      ++ (if L.sawAudio then [Out.timing "first_audio"] else [])
      ++ [Out.timing "total", Out.done])

/-- Result of the greeting event loop. -/
structure GreetRes where
  response : String
  outs : List Out
  sawAudio : Bool
  deriving DecidableEq, Repr

/-- The event loop of `stream_greeting` (lines 289–317): accumulates
reply deltas, emits audio deltas, stops on `response.done`, `error`,
sentinel or timeout; all other events fall through and the loop
continues. -/
def greetLoop : List QItem → String → Bool → List Out → GreetRes
  | [], r, sa, acc => ⟨r, acc, sa⟩
  | none :: _, r, sa, acc => ⟨r, acc, sa⟩
  | some ev :: rest, r, sa, acc =>
    match ev with
    | .textDelta d => greetLoop rest (r ++ d) sa acc
    | .audioDelta d => greetLoop rest r true (acc ++ [Out.audio d])
    | .responseDone => ⟨r, acc, sa⟩
    | .errorEv => ⟨r, acc, sa⟩
    | .inputTranscript _ => greetLoop rest r sa acc
    | .outputItemDone _ => greetLoop rest r sa acc

/-- `RealtimeSession.stream_greeting`: streams the greeting triggered at
connect time.  The body contains no DB write and never touches
`_turn_index`, so the session state is returned unchanged. -/
def stream_greeting (st : SessState) (events : List QItem) :
    SessState × List Out :=
  let L := greetLoop events "" false []
  (st, L.outs ++ (if L.response ≠ "" then [Out.response L.response] else [])
      ++ (if L.sawAudio then [Out.timing "first_audio"] else [])
      ++ [Out.timing "total", Out.done])

/-- One turn-initiating call on a session: an audio turn (the popped
events and whether the segment INSERT succeeds) or a text turn. -/
inductive TurnInput
  | audio (events : List QItem) (dbOk : Bool)
  | text (msg : String) (events : List QItem) (dbOk : Bool)
  deriving Repr

/-- State transition of one turn (the output items are not part of the
persisted state). -/
def stepTurn (st : SessState) : TurnInput → SessState
  | .audio evs ok => (send_audio_and_stream st evs ok).1
  | .text m evs ok => (send_text_and_stream st m evs ok).1

/-- A whole session's turn processing: `_turn_index` starts at 0 with no
persisted segments, then the serialized turn calls run in order. -/
def runSession (turns : List TurnInput) : SessState :=
  turns.foldl stepTurn ⟨0, []⟩

/-!
### Cross-turn event attribution (`send_audio_and_stream` lines 180–191)

Before submitting a new turn's input, the code drains the queue with
`get_nowait` until it is empty.  To reason about which turn an event was
generated by, events are ghost-tagged with their originating turn.
-/

/-- An inbound event ghost-tagged with the turn that generated it. -/
structure TEv where
  turn : Nat
  ev : Ev
  deriving DecidableEq, Repr

/-- The drain loop: `while not self._event_queue.empty(): get_nowait()`
discards every item currently queued. -/
def drain_queue : List TEv → List TEv
  | [] => []
  | _ :: rest => drain_queue rest

/-- The events a turn's event loop pops (and therefore consumes and
attributes to the current turn) from a queue holding the given items in
order: everything up to and including the first terminating event. -/
def consume_events : List TEv → List TEv
  | [] => []
  | e :: rest =>
    match e.ev with
    | .responseDone => [e]
    | .errorEv => [e]
    | _ => e :: consume_events rest

/-- The queue contents a new turn's loop reads: the result of draining
the items queued when the call starts (`queued`), followed by the items
the listener delivers after the drain completes (`arrivals`). -/
def turn_queue (queued arrivals : List TEv) : List TEv :=
  drain_queue queued ++ arrivals

/-- All events consumed while processing one turn, given the items
queued at drain time and those arriving afterwards. -/
def consumed_in_turn (queued arrivals : List TEv) : List TEv :=
  consume_events (turn_queue queued arrivals)

/-!
### Session registry and lifecycle (`backend/sessions.py`)

The module-level maps `_sessions`, `_session_user_ids`, `_session_modes`
and the `sessions` table rows touched by this module.
-/

/-- Background tasks that `sessions.py` can spawn with
`asyncio.create_task`.  `runReview` is `_run_review` (per-turn AI-mark
generation); the review-summary and profile-update finalization tasks
named by the spec are listed so that their (non-)launching can be
stated. -/
inductive BgTask
  | runReview (sessionId : String)
  | reviewSummaryTask (sessionId : String)
  | profileUpdateTask (userId : String)
  deriving DecidableEq, Repr

/-- Association-list lookup (first match), the model of a keyed SELECT
or dict access. -/
def alookup (l : List (String × String)) (k : String) : Option String :=
  (l.find? (fun p => p.1 = k)).map (·.2)

/-- Remove a key from an association list (`dict.pop`). -/
def aremove (l : List (String × String)) (k : String) : List (String × String) :=
  l.filter (fun p => p.1 ≠ k)

/-- `UPDATE sessions SET status = ? WHERE id = ?` on the status map. -/
def set_db_status (l : List (String × String)) (sid status : String) :
    List (String × String) :=
  l.map (fun p => if p.1 = sid then (p.1, status) else p)

/-- The state owned by `sessions.py`: the in-memory registry
`_sessions` (modelled by the set of keys present), the
`_session_user_ids` and `_session_modes` maps, and the `sessions` table
rows as a session-id → status map. -/
structure SessionsState where
  registry : List String
  userIds : List (String × String)
  modes : List (String × String)
  dbSessions : List (String × String)
  deriving DecidableEq, Repr

/-- `sessions.create_session`, reduced to its state effects: register
the new session in all three maps, insert a `sessions` row with status
`active`, and schedule `_connect_with_retry` in the background (the
caller does not await it). -/
def create_session (st : SessionsState) (sid uid mode : String) : SessionsState :=
  { registry := sid :: st.registry,
    userIds := (sid, uid) :: st.userIds,
    modes := (sid, mode) :: st.modes,
    dbSessions := st.dbSessions ++ [(sid, "active")] }

/-- The failure path of `sessions._connect_with_retry`: when
`session.connect()` raises, the handler logs and runs
`_sessions.pop(session_id, None)` — only the registry map is touched,
no database write happens. -/
def connect_failure (st : SessionsState) (sid : String) : SessionsState :=
  { st with registry := st.registry.erase sid }

/-- `sessions.get_session`: is the session id present in the in-memory
registry? -/
def get_session (st : SessionsState) (sid : String) : Bool :=
  st.registry.contains sid

/-- Outcome of `sessions.delete_session` when the session exists. -/
structure DeleteOutcome where
  state : SessionsState
  connClosed : Bool
  spawned : List BgTask
  statusReturned : String
  deriving DecidableEq, Repr

/-- `sessions.delete_session` (lines 168–198): pop the session from the
registry (returning `none` if absent), pop its mode, close the
connection; in review mode persist status `ended` and return with no
background task; otherwise persist `reviewing` and spawn `_run_review`. -/
def delete_session (st : SessionsState) (sid : String) : Option DeleteOutcome :=
  if st.registry.contains sid then
    let mode := (alookup st.modes sid).getD "conversation"
    let st1 : SessionsState :=
      { st with registry := st.registry.erase sid, modes := aremove st.modes sid }
    if mode = "review" then
      some { state := { st1 with dbSessions := set_db_status st1.dbSessions sid "ended" },
             connClosed := true,
             spawned := [],
             statusReturned := "ended" }
    else
      some { state := { st1 with dbSessions := set_db_status st1.dbSessions sid "reviewing" },
             connClosed := true,
             spawned := [BgTask.runReview sid],
             statusReturned := "reviewing" }
  else none

/-!
### Finalization orchestrator (`backend/main.py` `_finalize_session`)

Python binds a coroutine's arguments when the coroutine object is
created: calling an `async def` with the wrong number of positional
arguments raises `TypeError` synchronously, before anything is awaited.
The embedding therefore models task creation as an arity-checked step
(`make_coroutine`), with the parameter lists taken from the `def` lines
of `review.py` / `profile.py` and the argument lists from the call sites
in `_finalize_session`.
-/

/-- One row of the `sessions` table (the columns finalization reads). -/
structure SessionRow where
  id : String
  user_id : String
  status : String
  topic_id : Option String
  deriving DecidableEq, Repr

/-- The persisted state finalization touches: `sessions` rows,
`segments` rows (session id and turn index), the set of session ids
having a `session_summaries` row, the set having a `chat_summaries`
row, and the users whose `profile_data` was rewritten by
`update_profile_after_session`. -/
structure FinDB where
  sessions : List SessionRow
  segments : List (String × Nat)
  session_summaries : List String
  chat_summaries : List String
  profiles_updated : List String
  deriving DecidableEq, Repr

/-- `UPDATE sessions SET status = ? WHERE id = ?`. -/
def fin_set_status (db : FinDB) (sid status : String) : FinDB :=
  { db with sessions :=
      db.sessions.map (fun r => if r.id = sid then { r with status := status } else r) }

/-- Status of a session row, as polling callers read it. -/
def status_of (db : FinDB) (sid : String) : Option String :=
  (db.sessions.find? (fun r => r.id = sid)).map (·.status)

/-- `SELECT topic_id FROM sessions WHERE id = ?` followed by the
truthiness check in `_finalize_session` (an empty/NULL topic counts as
no topic). -/
def topic_of (db : FinDB) (sid : String) : Option String :=
  match db.sessions.find? (fun r => r.id = sid) with
  | some r => match r.topic_id with
    | some t => if t = "" then none else some t
    | none => none
  | none => none

/-- `review.generate_session_review(session_id)` (review.py lines
213–287), reduced to its persisted effects: with no segments it returns
without writing (`None`); otherwise it calls the text-completion engine
and upserts one `session_summaries` row for the session (INSERT OR
REPLACE). -/
def generate_session_review_run (sid : String) (db : FinDB) : Except Unit FinDB :=
  if (db.segments.filter (fun p => p.1 = sid)).isEmpty then .ok db
  else .ok { db with session_summaries :=
      sid :: db.session_summaries.filter (fun s => s ≠ sid) }

/-- `profile.update_profile_after_session(user_id, session_id)`, reduced
to its persisted effect: rewrites the user's `profile_data` from the
engine's answer. -/
def update_profile_after_session_run (uid : String) (db : FinDB) :
    Except Unit FinDB :=
  .ok { db with profiles_updated := db.profiles_updated ++ [uid] }

/-- `review.generate_chat_summary(session_id, topic_id)`, reduced to its
persisted effect: with no segments it skips; otherwise it upserts one
`chat_summaries` row. -/
def generate_chat_summary_run (sid : String) (db : FinDB) : Except Unit FinDB :=
  if (db.segments.filter (fun p => p.1 = sid)).isEmpty then .ok db
  else .ok { db with chat_summaries :=
      sid :: db.chat_summaries.filter (fun s => s ≠ sid) }

/-- Parameter list of `async def generate_session_review(session_id)`
in `review.py`. -/
def generate_session_review_param_names : List String := ["session_id"]

/-- Parameter list of
`async def update_profile_after_session(user_id, session_id)` in
`profile.py`. -/
def update_profile_after_session_param_names : List String :=
  ["user_id", "session_id"]

/-- Parameter list of
`async def generate_chat_summary(session_id, topic_id)` in `review.py`. -/
def generate_chat_summary_param_names : List String :=
  ["session_id", "topic_id"]

/-- Creating a coroutine object: Python binds the positional arguments
immediately and raises `TypeError` when their number does not match the
function's parameters; only a successfully created coroutine can later
be awaited (run). -/
def make_coroutine (paramNames : List String) (args : List String)
    (run : FinDB → Except Unit FinDB) :
    Except Unit (FinDB → Except Unit FinDB) :=
  if args.length = paramNames.length then .ok run else .error ()

/-- `asyncio.gather` over the task list, threading the shared database
connection; any task's exception propagates out of the `await`. -/
def gather_all : List (FinDB → Except Unit FinDB) → FinDB → Except Unit FinDB
  | [], db => .ok db
  | t :: ts, db =>
    match t db with
    | .ok db2 => gather_all ts db2
    | .error e => .error e

/-- The `try` body of `_finalize_session` (main.py lines 328–350),
parametric in the semantics of the three sub-tasks so that any sub-task
outcome can be considered: build the task list — calling
`generate_session_review(session_id, user_id)` with TWO arguments and
`update_profile_after_session(user_id, session_id)` — add the chat
summary task when the session has a topic reference, then gather. -/
def finalize_body_with (db : FinDB) (sid uid : String)
    (reviewRun profileRun chatRun : FinDB → Except Unit FinDB) :
    Except Unit FinDB := do
  let t1 ← make_coroutine generate_session_review_param_names [sid, uid] reviewRun
  let t2 ← make_coroutine update_profile_after_session_param_names [uid, sid] profileRun
  match topic_of db sid with
  | some tid => do
      let t3 ← make_coroutine generate_chat_summary_param_names [sid, tid] chatRun
      gather_all [t1, t2, t3] db
  | none => gather_all [t1, t2] db

/-- `_finalize_session(session_id, user_id)`: run the `try` body; any
exception is caught and logged; the `finally` block then persists status
`completed` (`finalWriteOk` is whether that last UPDATE itself succeeds;
its own failure is also only logged). -/
def finalize_session_with (db : FinDB) (sid uid : String)
    (reviewRun profileRun chatRun : FinDB → Except Unit FinDB)
    (finalWriteOk : Bool) : FinDB :=
  let db1 := match finalize_body_with db sid uid reviewRun profileRun chatRun with
    | .ok d => d
    | .error _ => db
  if finalWriteOk then fin_set_status db1 sid "completed" else db1

/-- The `try` body of `_finalize_session` with the sub-task semantics of
the source. -/
def finalize_body (db : FinDB) (sid uid : String) : Except Unit FinDB :=
  finalize_body_with db sid uid
    (generate_session_review_run sid)
    (update_profile_after_session_run uid)
    (generate_chat_summary_run sid)

/-- `_finalize_session` with the sub-task semantics of the source and a
succeeding final status write. -/
def finalize_session (db : FinDB) (sid uid : String) : FinDB :=
  finalize_session_with db sid uid
    (generate_session_review_run sid)
    (update_profile_after_session_run uid)
    (generate_chat_summary_run sid)
    true

/-!
### User profiles (`backend/profile.py` and the `user_profiles` schema)
-/

/-- SQL errors the profile inserts can raise under the constraints of
the `user_profiles` table in `db.py`. -/
inductive SqlError
  | notNullViolation
  | uniqueViolation
  deriving DecidableEq, Repr

/-- The structured `profile_data` blob, with the default values built in
`get_or_create_profile` (empty lists for `personal_facts`, for the three
`weak_points` dimensions and for `common_errors` / `quick_review`, and
an empty `progress_notes` string). -/
structure ProfileData where
  personal_facts : List String
  weak_points_grammar : List String
  weak_points_naturalness : List String
  weak_points_sentence_structure : List String
  common_errors : List String
  progress_notes : String
  quick_review : List String
  deriving DecidableEq, Repr

/-- The `default_data` dict of `get_or_create_profile`. -/
def default_profile_data : ProfileData :=
  { personal_facts := [],
    weak_points_grammar := [],
    weak_points_naturalness := [],
    weak_points_sentence_structure := [],
    common_errors := [],
    progress_notes := "",
    quick_review := [] }

/-- One row of `user_profiles`.  The `level` field is optional in the
application model (the spec calls it nullable until first evaluation);
whether the database accepts a NULL is decided by the schema constraint
enforced in `insert_user_profile`. -/
structure ProfileRow where
  user_id : String
  level : Option String
  profile_data : ProfileData
  deriving DecidableEq, Repr

/-- `INSERT INTO user_profiles (user_id, level, profile_data,
updated_at) VALUES (?, ?, ?, ?)` under the schema of `db.py`:
`user_id TEXT PRIMARY KEY` and `level TEXT NOT NULL DEFAULT
'intermediate'` — an explicitly supplied NULL level violates the NOT
NULL constraint, and a duplicate user id violates the primary key. -/
def insert_user_profile (rows : List ProfileRow) (uid : String)
    (level : Option String) (data : ProfileData) :
    Except SqlError (List ProfileRow) :=
  if (rows.find? (fun r => r.user_id = uid)).isSome then .error .uniqueViolation
  else
    match level with
    | none => .error .notNullViolation
    | some lv => .ok (rows ++ [{ user_id := uid, level := some lv, profile_data := data }])

/-- `profile.get_or_create_profile(user_id)` (profile.py lines 59–98):
return the existing row if present; otherwise insert a default row
passing `None` as the level, and return the freshly built profile. -/
def get_or_create_profile (rows : List ProfileRow) (uid : String) :
    Except SqlError (List ProfileRow × ProfileRow) :=
  match rows.find? (fun r => r.user_id = uid) with
  | some r => .ok (rows, r)
  | none => do
      let rows2 ← insert_user_profile rows uid none default_profile_data
      .ok (rows2, { user_id := uid, level := none, profile_data := default_profile_data })

/-!
### Concrete instances used by the claim theorems
-/

/-- Output-item kinds `stream_greeting` may produce: audio, response,
timing and done — everything except the `transcript` item (a greeting
has no user utterance). -/
def Out.isGreetingKind : Out → Bool
  | .transcript _ => false
  | .audio _ => true
  | .response _ => true
  | .timing _ => true
  | .done => true

/-- An audio turn whose events yield a non-empty transcript and a
non-empty reply. -/
def c7_events : List QItem :=
  [some (Ev.inputTranscript "I go to store yesterday"),
   some (Ev.textDelta "Got it"),
   some Ev.responseDone]

/-- A trailing event of turn 0 that the listener delivers only after
turn 1's drain has completed. -/
def c8_stale : TEv := { turn := 0, ev := Ev.inputTranscript "stale" }

/-- The events arriving while turn 1 is processed: first the stale
turn-0 transcription, then turn 1's own terminal event. -/
def c8_arrivals : List TEv :=
  [c8_stale, { turn := 1, ev := Ev.responseDone }]

/-- A registry state holding one review-mode session `r1` of user `u1`
whose persisted row is still `active`. -/
def c3_state : SessionsState :=
  { registry := ["r1"],
    userIds := [("r1", "u1")],
    modes := [("r1", "review")],
    dbSessions := [("r1", "active")] }

/-- A database with one session `s1` of user `u1` in status
`completing`, holding one segment and no summary rows: the state in
which `_finalize_session` is launched by the end-session endpoint. -/
def c1_db : FinDB :=
  { sessions := [{ id := "s1", user_id := "u1", status := "completing", topic_id := none }],
    segments := [("s1", 0)],
    session_summaries := [],
    chat_summaries := [],
    profiles_updated := [] }

/-- Like `c1_db`, used to witness the unconditional-completion
guarantee. -/
def c2_db : FinDB :=
  { sessions := [{ id := "s1", user_id := "u1", status := "completing", topic_id := none }],
    segments := [("s1", 0)],
    session_summaries := [],
    chat_summaries := [],
    profiles_updated := [] }

/-!
### Helper lemmas
-/

/-- The drain loop removes every item currently queued. -/
theorem drain_queue_eq_nil (l : List TEv) : drain_queue l = [] := by
  induction l with
  | nil => rfl
  | cons a t ih => simpa [drain_queue] using ih

/-- Every event the turn loop consumes was on the queue it read. -/
theorem consume_events_subset (l : List TEv) :
    ∀ e, e ∈ consume_events l → e ∈ l := by
  induction l with
  | nil => intro e h; simp [consume_events] at h
  | cons a t ih =>
    intro e h
    cases hev : a.ev with
    | responseDone =>
      simp [consume_events, hev] at h
      simp [h]
    | errorEv =>
      simp [consume_events, hev] at h
      simp [h]
    | inputTranscript s =>
      simp only [consume_events, hev, List.mem_cons] at h
      rcases h with h | h
      · simp [h]
      · exact List.mem_cons_of_mem _ (ih e h)
    | textDelta d =>
      simp only [consume_events, hev, List.mem_cons] at h
      rcases h with h | h
      · simp [h]
      · exact List.mem_cons_of_mem _ (ih e h)
    | audioDelta d =>
      simp only [consume_events, hev, List.mem_cons] at h
      rcases h with h | h
      · simp [h]
      · exact List.mem_cons_of_mem _ (ih e h)
    | outputItemDone b =>
      simp only [consume_events, hev, List.mem_cons] at h
      rcases h with h | h
      · simp [h]
      · exact List.mem_cons_of_mem _ (ih e h)

/-- A segment-persistence step changes the persisted segment list
exactly when both texts are non-empty and the INSERT succeeds. -/
theorem persistSegment_changed (st : SessState) (u r : String) (ok : Bool) :
    (persistSegment st u r ok).segments ≠ st.segments
      ↔ (u ≠ "" ∧ r ≠ "" ∧ ok = true) := by
  unfold persistSegment
  by_cases hur : u ≠ "" ∧ r ≠ ""
  · rw [if_pos hur]
    by_cases hok : ok = true
    · rw [if_pos hok]
      constructor
      · intro _
        exact ⟨hur.1, hur.2, hok⟩
      · intro _ h
        have hl := congrArg List.length h
        simp at hl
    · rw [if_neg hok]
      simp [hok]
  · rw [if_neg hur]
    simp only [ne_eq, not_true_eq_false, false_iff]
    tauto

/-- The invariant step: a persistence step keeps the persisted turn
indices equal to `List.range` of the turn counter. -/
theorem persistSegment_indices (st : SessState) (u r : String) (ok : Bool)
    (h : st.segments.map Prod.fst = List.range st.turnIndex) :
    (persistSegment st u r ok).segments.map Prod.fst
      = List.range (persistSegment st u r ok).turnIndex := by
  unfold persistSegment
  split
  · cases ok
    · simpa using h
    · simp [h, List.range_succ]
  · exact h

/-- Any single turn call preserves the turn-index invariant. -/
theorem stepTurn_indices (st : SessState) (ti : TurnInput)
    (h : st.segments.map Prod.fst = List.range st.turnIndex) :
    (stepTurn st ti).segments.map Prod.fst = List.range (stepTurn st ti).turnIndex := by
  cases ti with
  | audio evs ok => exact persistSegment_indices st _ _ ok h
  | text m evs ok => exact persistSegment_indices st _ _ ok h

/-- The invariant is preserved along any sequence of turns. -/
theorem foldl_stepTurn_indices (turns : List TurnInput) :
    ∀ st : SessState, st.segments.map Prod.fst = List.range st.turnIndex →
      (turns.foldl stepTurn st).segments.map Prod.fst
        = List.range (turns.foldl stepTurn st).turnIndex := by
  induction turns with
  | nil => intro st h; simpa using h
  | cons t ts ih => intro st h; exact ih _ (stepTurn_indices st t h)

/-- Every output item the greeting event loop emits is of a greeting
kind (audio), provided the accumulator only holds such items. -/
theorem greetLoop_outs (events : List QItem) :
    ∀ (r : String) (sa : Bool) (acc : List Out),
      (∀ o ∈ acc, o.isGreetingKind = true) →
      ∀ o ∈ (greetLoop events r sa acc).outs, o.isGreetingKind = true := by
  induction events with
  | nil =>
    intro r sa acc hacc o ho
    exact hacc o ho
  | cons q rest ih =>
    intro r sa acc hacc o ho
    cases q with
    | none => exact hacc o ho
    | some ev =>
      cases ev with
      | inputTranscript s => exact ih r sa acc hacc o ho
      | textDelta d => exact ih (r ++ d) sa acc hacc o ho
      | audioDelta d =>
        refine ih r true (acc ++ [Out.audio d]) ?_ o ho
        intro o' ho'
        rcases List.mem_append.mp ho' with h | h
        · exact hacc o' h
        · simp at h
          simp [h, Out.isGreetingKind]
      | outputItemDone b => exact ih r sa acc hacc o ho
      | responseDone => exact hacc o ho
      | errorEv => exact hacc o ho

/-- Association-list lookup skips a prefix in which the key is absent. -/
theorem alookup_append_of_none (l1 l2 : List (String × String)) (k : String)
    (h : alookup l1 k = none) : alookup (l1 ++ l2) k = alookup l2 k := by
  induction l1 with
  | nil => rfl
  | cons a t ih =>
    by_cases ha : a.1 = k
    · simp [alookup, List.find?, ha] at h
    · simp only [alookup, List.cons_append, List.find?] at h ⊢
      rw [show (a.1 = k : Bool) = false by simpa using ha] at h ⊢
      exact ih h

/-- Updating a present key with `set_db_status` makes the lookup return
the new status. -/
theorem alookup_set_db_status (l : List (String × String)) (sid s v : String)
    (h : alookup l sid = some v) :
    alookup (set_db_status l sid s) sid = some s := by
  induction l with
  | nil => simp [alookup] at h
  | cons a t ih =>
    by_cases ha : a.1 = sid
    · simp [alookup, set_db_status, List.find?, ha]
    · simp only [alookup, set_db_status, List.map, List.find?, if_neg ha] at h ⊢
      rw [show (a.1 = sid : Bool) = false by simpa using ha] at h ⊢
      exact ih h

/-- The `try` body of `_finalize_session` always raises: the very first
task construction calls `generate_session_review` with two positional
arguments against a one-parameter definition, so the `TypeError` is
raised before any sub-task can run — whatever the sub-tasks would have
done. -/
theorem finalize_body_with_errors (db : FinDB) (sid uid : String)
    (reviewRun profileRun chatRun : FinDB → Except Unit FinDB) :
    finalize_body_with db sid uid reviewRun profileRun chatRun = .error () := rfl

/-- After `fin_set_status db sid s`, a session row that existed reads
back status `s`. -/
theorem find_map_status (l : List SessionRow) (sid s : String)
    (h : (l.find? (fun r => r.id = sid)).isSome = true) :
    ((l.map (fun r => if r.id = sid then { r with status := s } else r)).find?
        (fun r => r.id = sid)).map (fun r => r.status) = some s := by
  induction l with
  | nil => simp at h
  | cons a t ih =>
    by_cases ha : a.id = sid
    · simp [List.find?, ha]
    · simp only [List.find?, List.map, if_neg ha] at h ⊢
      rw [show (a.id = sid : Bool) = false by simpa using ha] at h ⊢
      exact ih h

/-- After `fin_set_status db sid s`, a session row that existed reads
back status `s`. -/
theorem status_of_set_status (db : FinDB) (sid s : String)
    (h : (db.sessions.find? (fun r => r.id = sid)).isSome = true) :
    status_of (fin_set_status db sid s) sid = some s :=
  find_map_status db.sessions sid s h

/-- Membership in a conditional singleton forces equality. -/
theorem mem_ite_nil {c : Prop} [Decidable c] {x o : Out}
    (h : o ∈ (if c then [x] else [])) : o = x := by
  split at h
  · simpa using h
  · simp at h

/-!
### Claim theorems
-/

/-- Claim C1, code-bug evaluation: on a session `s1` with one segment,
`_finalize_session` raises `TypeError` while building its task list
(`generate_session_review` takes one parameter but is called with two),
so the parallel group never runs: no session summary row is created and
no profile update happens, yet the `finally` block still marks the
session `completed`.  The last conjunct shows the review sub-task would
have upserted the summary row had it been callable. -/
theorem C1_finalize_arity_bug :
    finalize_body c1_db "s1" "u1" = .error ()
    ∧ (finalize_session c1_db "s1" "u1").session_summaries = []
    ∧ (finalize_session c1_db "s1" "u1").profiles_updated = []
    ∧ status_of (finalize_session c1_db "s1" "u1") "s1" = some "completed"
    ∧ generate_session_review_run "s1" c1_db
        = .ok { c1_db with session_summaries := ["s1"] } := by
  refine ⟨rfl, rfl, rfl, rfl, rfl⟩

/-- Claim C2: for every finalization run on a session with at least one
segment, whatever the three sub-tasks do (success or exception), the
run ends with the session's persisted status set to `completed`. -/
theorem C2_finalize_always_completed (db : FinDB) (sid uid : String)
    (reviewRun profileRun chatRun : FinDB → Except Unit FinDB)
    (hrow : (db.sessions.find? (fun r => r.id = sid)).isSome = true)
    (hseg : (db.segments.filter (fun p => p.1 = sid)).isEmpty = false) :
    status_of (finalize_session_with db sid uid reviewRun profileRun chatRun true) sid
      = some "completed" := by
  unfold finalize_session_with
  rw [finalize_body_with_errors]
  simpa using status_of_set_status db sid "completed" hrow

/-- Claim C2, witness: a run whose chat-summary sub-task raises still
ends with status `completed`. -/
theorem C2_finalize_always_completed_witness :
    status_of (finalize_session_with c2_db "s1" "u1"
        (fun d => Except.ok d) (fun d => Except.ok d) (fun _ => Except.error ()) true)
      "s1" = some "completed" :=
  C2_finalize_always_completed c2_db "s1" "u1" _ _ _ rfl rfl

/-- Claim C3, counterexample: ending the review-mode session `r1`
returns status `ended` but launches NO background task at all — in
particular neither a review-summary nor a profile-update finalization
task, contrary to the claim. -/
theorem C3_counterexample :
    (delete_session c3_state "r1").map DeleteOutcome.spawned = some []
    ∧ (delete_session c3_state "r1").map DeleteOutcome.statusReturned = some "ended" := by
  exact ⟨rfl, rfl⟩

/-- Claim C3, amended: ending a session in review mode closes the
connection and persists status `ended` directly, without per-turn mark
generation — and launches no background finalization task whatsoever. -/
theorem C3_review_end_no_finalization (st : SessionsState) (sid s0 : String)
    (hreg : st.registry.contains sid = true)
    (hmode : alookup st.modes sid = some "review")
    (hdb : alookup st.dbSessions sid = some s0) :
    ∃ out, delete_session st sid = some out
      ∧ out.connClosed = true
      ∧ out.spawned = []
      ∧ out.statusReturned = "ended"
      ∧ alookup out.state.dbSessions sid = some "ended" := by
  unfold delete_session
  rw [if_pos hreg]
  simp only [hmode, Option.getD_some, if_pos rfl]
  exact ⟨_, rfl, rfl, rfl, rfl, alookup_set_db_status st.dbSessions sid "ended" s0 hdb⟩

/-- Claim C3, witness for the amended statement. -/
theorem C3_review_end_no_finalization_witness :
    ∃ out, delete_session c3_state "r1" = some out
      ∧ out.connClosed = true
      ∧ out.spawned = []
      ∧ out.statusReturned = "ended"
      ∧ alookup out.state.dbSessions "r1" = some "ended" :=
  C3_review_end_no_finalization c3_state "r1" "active" rfl rfl rfl

/-- Claim C4, counterexample: when the connection closes normally (the
event iteration ends without raising), the listener terminates without
enqueuing the sentinel. -/
theorem C4_counterexample :
    ¬ ((none : QItem) ∈ listen_loop [Ev.responseDone] false) := by
  simp [listen_loop]

/-- Claim C4, amended: the listener enqueues the sentinel exactly when
the connection raised an error; a normal close terminates the listener
with no sentinel. -/
theorem C4_sentinel_iff_error (events : List Ev) (raisesError : Bool) :
    ((none : QItem) ∈ listen_loop events raisesError) ↔ raisesError = true := by
  cases raisesError <;> simp [listen_loop]

/-- Claim C5, code-bug evaluation: the first profile access for a user
with no profile row does NOT succeed — `get_or_create_profile` inserts
an explicit NULL level into `user_profiles.level`, which the schema
declares NOT NULL, so the insert raises instead of creating the default
profile. -/
theorem C5_first_access_raises :
    get_or_create_profile [] "new_user" = .error .notNullViolation := rfl

/-- Claim C6: starting from a fresh session, after any sequence of audio
and text turns — including turns with empty transcripts and turns whose
segment INSERT fails — the persisted turn indices are exactly
`0, 1, …, n-1` in order: starting at 0, strictly increasing, with no
gaps and no duplicates. -/
theorem C6_turn_indices (turns : List TurnInput) :
    (runSession turns).segments.map Prod.fst
      = List.range (runSession turns).segments.length
    ∧ List.Pairwise (fun a b => a < b) ((runSession turns).segments.map Prod.fst) := by
  have h : (runSession turns).segments.map Prod.fst
      = List.range (runSession turns).turnIndex :=
    foldl_stepTurn_indices turns ⟨0, []⟩ (by simp)
  have hlen : (runSession turns).segments.length = (runSession turns).turnIndex := by
    have h2 := congrArg List.length h
    simpa using h2
  constructor
  · rw [hlen]
    exact h
  · rw [h]
    exact List.pairwise_lt_range _

/-- Claim C7, counterexample: a turn whose events produce a non-empty
transcript and a non-empty reply but whose segment INSERT fails persists
no segment — both texts being non-empty at the end of the loop is not
sufficient for a segment to be persisted. -/
theorem C7_counterexample :
    (audioLoop c7_events "" "" false []).transcript ≠ ""
    ∧ (audioLoop c7_events "" "" false []).response ≠ ""
    ∧ (send_audio_and_stream ⟨0, []⟩ c7_events false).1.segments = [] := by
  refine ⟨by decide, by decide, rfl⟩

/-- Claim C7, amended: a segment is persisted for a turn iff both the
user text and the reply text are non-empty at the end of the turn loop
AND the INSERT succeeds; in particular a turn with no transcript (e.g.
timeout) persists nothing, on both the audio and the text path. -/
theorem C7_persisted_iff (st : SessState) (m : String) (events : List QItem)
    (dbOk : Bool) :
    ((send_audio_and_stream st events dbOk).1.segments ≠ st.segments
      ↔ ((audioLoop events "" "" false []).transcript ≠ ""
          ∧ (audioLoop events "" "" false []).response ≠ ""
          ∧ dbOk = true))
    ∧ ((send_text_and_stream st m events dbOk).1.segments ≠ st.segments
      ↔ (m ≠ "" ∧ (textLoop events "" false []).response ≠ "" ∧ dbOk = true)) :=
  ⟨persistSegment_changed st _ _ dbOk, persistSegment_changed st _ _ dbOk⟩

/-- Claim C8, counterexample: a trailing event generated by turn 0 that
the listener delivers only after turn 1's drain has completed IS
consumed by turn 1's loop — and is even attributed as turn 1's user
transcript. -/
theorem C8_counterexample :
    c8_stale ∈ consumed_in_turn [] c8_arrivals
    ∧ c8_stale.turn = 0
    ∧ (audioLoop (c8_arrivals.map (fun e => some e.ev)) "" "" false []).transcript
        = "stale" := by
  refine ⟨by decide, rfl, rfl⟩

/-- Claim C8, amended: the pre-turn drain discards exactly the events
queued when it runs, so every event the new turn consumes arrived after
the drain completed; events already queued at drain time are never
consumed by the new turn, but later-arriving trailing events may be. -/
theorem C8_consumed_only_arrivals (queued arrivals : List TEv) :
    consumed_in_turn queued arrivals = consume_events arrivals
    ∧ ∀ e, e ∈ consumed_in_turn queued arrivals → e ∈ arrivals := by
  have h1 : consumed_in_turn queued arrivals = consume_events arrivals := by
    unfold consumed_in_turn turn_queue
    rw [drain_queue_eq_nil]
    rfl
  refine ⟨h1, ?_⟩
  intro e he
  rw [h1] at he
  exact consume_events_subset arrivals e he

/-- Claim C8, witness for the amended statement. -/
theorem C8_consumed_only_arrivals_witness :
    consumed_in_turn [c8_stale] c8_arrivals = consume_events c8_arrivals
    ∧ c8_stale ∈ c8_arrivals :=
  ⟨(C8_consumed_only_arrivals [c8_stale] c8_arrivals).1,
   (C8_consumed_only_arrivals [c8_stale] c8_arrivals).2 c8_stale (by decide)⟩

/-- Claim C9: when background connection establishment fails after
session creation, the session disappears from the in-memory registry
(lookups return nothing) while its persisted row keeps status `active`;
the failure path performs no database write at all. -/
theorem C9_connect_failure_silent (st : SessionsState) (sid uid mode : String)
    (hreg : sid ∉ st.registry)
    (hdb : alookup st.dbSessions sid = none) :
    get_session (connect_failure (create_session st sid uid mode) sid) sid = false
    ∧ alookup (connect_failure (create_session st sid uid mode) sid).dbSessions sid
        = some "active"
    ∧ (connect_failure (create_session st sid uid mode) sid).dbSessions
        = (create_session st sid uid mode).dbSessions := by
  refine ⟨?_, ?_, rfl⟩
  · unfold get_session connect_failure create_session
    simp only [List.erase_cons_head]
    simpa using hreg
  · have h := alookup_append_of_none st.dbSessions [(sid, "active")] sid hdb
    unfold connect_failure create_session
    simpa [alookup] using h

/-- Claim C9, witness. -/
theorem C9_connect_failure_silent_witness :
    get_session (connect_failure
        (create_session ⟨[], [], [], []⟩ "s1" "u1" "conversation") "s1") "s1" = false
    ∧ alookup (connect_failure
        (create_session ⟨[], [], [], []⟩ "s1" "u1" "conversation") "s1").dbSessions "s1"
        = some "active"
    ∧ (connect_failure
        (create_session ⟨[], [], [], []⟩ "s1" "u1" "conversation") "s1").dbSessions
        = (create_session ⟨[], [], [], []⟩ "s1" "u1" "conversation").dbSessions :=
  C9_connect_failure_silent ⟨[], [], [], []⟩ "s1" "u1" "conversation" (by simp) rfl

/-- Claim C10: streaming the greeting leaves the session state — the
turn counter and the persisted segments — unchanged, and every output
item produced is audio, response, timing or done (never a transcript
item, and no segment row). -/
theorem C10_greeting_no_persistence (st : SessState) (events : List QItem) :
    (stream_greeting st events).1 = st
    ∧ ∀ o ∈ (stream_greeting st events).2, o.isGreetingKind = true := by
  refine ⟨rfl, ?_⟩
  intro o ho
  unfold stream_greeting at ho
  simp only [List.mem_append, List.mem_cons, List.mem_singleton] at ho
  rcases ho with ((h | h) | h) | h | h
  · exact greetLoop_outs events "" false [] (by intro o' h'; simp at h') o h
  · rw [mem_ite_nil h]
    rfl
  · rw [mem_ite_nil h]
    rfl
  · rw [h]
    rfl
  · simp at h
    rw [h]
    rfl

/-- Claim C10, witness. -/
theorem C10_greeting_no_persistence_witness :
    (stream_greeting ⟨2, [(0, "a", "b")]⟩ [some (Ev.audioDelta "zz")]).1
        = ⟨2, [(0, "a", "b")]⟩
    ∧ Out.isGreetingKind (Out.audio "zz") = true :=
  ⟨(C10_greeting_no_persistence ⟨2, [(0, "a", "b")]⟩ [some (Ev.audioDelta "zz")]).1,
   (C10_greeting_no_persistence ⟨2, [(0, "a", "b")]⟩ [some (Ev.audioDelta "zz")]).2
     (Out.audio "zz") (by decide)⟩
